import Mathlib

/-!
Shallow embedding of `helm/provider.go` from Patricol/terraform-provider-helm
(the provider's configuration-resolution and session-factory core), together
with theorems settling the specification claims about it.

Conventions of the embedding:
* Go dynamic values flowing through `schema.ResourceData` accessors are
  modelled by `SVal` (string-or-bool, the only two schema types occurring in
  the provider's schema).
* The process environment is a total function `Env : String → String`;
  an unset variable reads as `""`, exactly as Go's `os.Getenv`.
* Go panics (nil-pointer dereference, failed type assertion) are explicit
  outcomes of the embedded functions, since several claims are about them.
* External collaborators (`helmpath` default paths, `action.Configuration.Init`,
  the home-directory lookup fallback of go-homedir when `$HOME` is unset) are
  parameters or are modelled from their documented behaviour; everything else
  is transliterated from the source.
-/

namespace HelmProvider

/-- A dynamically typed schema value: the provider's schema uses only
`TypeString` and `TypeBool`. -/
inductive SVal where
  | s (v : String)
  | b (v : Bool)
deriving DecidableEq, Repr

/-- The process environment, as read by `os.Getenv`: unset reads as `""`. -/
def Env : Type := String → String

/-- Model of `schema.EnvDefaultFunc(k, dv)` for a string-typed default `dv`: the raw
environment value when non-empty, the hard-coded default otherwise. -/
def envDefaultS (env : Env) (k dv : String) : String :=
  if env k ≠ "" then env k else dv

/-- Model of `schema.EnvDefaultFunc(k, dv)` for a bool-typed default `dv`.  The Go
function returns the raw environment *string* when the variable is set and
the boolean default otherwise; the dynamic type therefore differs between the
two cases, which the provider's `k8sGetOk` and the subsequent type assertions
observe. -/
def envDefaultB (env : Env) (k : String) (dv : Bool) : SVal :=
  if env k ≠ "" then .s (env k) else .b dv

/-- Model of `schema.MultiEnvDefaultFunc(ks, dv)`: the first listed variable that is
set (non-empty) wins, otherwise the hard-coded default. -/
def multiEnvDefault (env : Env) (ks : List String) (dv : String) : String :=
  match ks with
  | [] => dv
  | k :: rest => if env k ≠ "" then env k else multiEnvDefault env rest dv

/-- The nested `kubernetes` configuration block (`kubernetesResource()` in the
source): each field holds `some v` when explicitly written in the
configuration block and `none` when absent. -/
structure KubernetesBlock where
  host : Option String := none
  username : Option String := none
  password : Option String := none
  token : Option String := none
  insecure : Option Bool := none
  client_certificate : Option String := none
  client_key : Option String := none
  cluster_ca_certificate : Option String := none
  config_path : Option String := none
  config_context : Option String := none
  in_cluster : Option Bool := none
  load_config_file : Option Bool := none
deriving DecidableEq, Repr

/-- The provider-level configuration block (`schema.ResourceData` restricted
to the provider's schema): explicit values only; defaults are resolved by the
accessor model below, as the SDK does at read time. -/
structure ResourceData where
  debug : Option Bool := none
  plugins_path : Option String := none
  registry_config_path : Option String := none
  repository_config_path : Option String := none
  repository_cache : Option String := none
  helm_driver : Option String := none
  helm_namespace : Option String := none
  kubernetes : Option KubernetesBlock := none
deriving DecidableEq, Repr

/-- The fields of `cli.EnvSettings` that `buildSettings` writes. -/
structure EnvSettings where
  Debug : Bool := false
  PluginsDirectory : String := ""
  RegistryConfig : String := ""
  RepositoryConfig : String := ""
  RepositoryCache : String := ""
deriving DecidableEq, Repr

/-- The fields of `genericclioptions.ConfigFlags` that `getK8sConfig`
writes.  Only the fields assigned in the source file are modelled. -/
structure ConfigFlags where
  KubeConfig : Option String := none
  Context : Option String := none
  Namespace : Option String := none
  Username : Option String := none
  BearerToken : Option String := none
  Insecure : Option Bool := none
  CertFile : Option String := none
  KeyFile : Option String := none
  CAFile : Option String := none
  ClusterName : Option String := none
deriving DecidableEq, Repr

/-- Model of `genericclioptions.NewConfigFlags(true)`, restricted to the modelled
fields. -/
def NewConfigFlags : ConfigFlags := {}

/-- The `Meta` structure of the provider.  `ConfigFlags` is a *pointer* in
the source and starts out nil (`none`): `providerConfigure` builds
`&Meta{data: d}` and `getK8sConfig` only assigns the pointer in its final
statement. -/
structure Meta where
  Settings : Option EnvSettings := none
  ConfigFlags : Option ConfigFlags := none
  HelmDriver : String := ""
deriving DecidableEq, Repr

/-- The platform-dependent `helmpath` defaults used by the top-level schema
(`helmpath.DataPath("plugins")` etc.); they are opaque external values, so the
embedding takes them as parameters. -/
structure HelmPaths where
  dataPathPlugins : String
  configPathRegistry : String
  configPathRepositories : String
  cachePathRepository : String
deriving DecidableEq, Repr

/-- Whether a nested `kubernetes` key has schema type `TypeBool`. -/
def k8sKeyIsBool (key : String) : Bool :=
  key = "insecure" ∨ key = "in_cluster" ∨ key = "load_config_file"

/-- The zero value of a nested key's schema type, returned by the SDK
accessors when the field is absent. -/
def zeroOf (key : String) : SVal :=
  if k8sKeyIsBool key then .b false else .s ""

/-- Reads the explicit value of a nested `kubernetes` field, if any
(`none` both when the block is absent and when the field is unset in it). -/
def kGetField (kb : Option KubernetesBlock) (key : String) : Option SVal :=
  match kb with
  | none => none
  | some k =>
    match key with
    | "host" => k.host.map .s
    | "username" => k.username.map .s
    | "password" => k.password.map .s
    | "token" => k.token.map .s
    | "insecure" => k.insecure.map .b
    | "client_certificate" => k.client_certificate.map .s
    | "client_key" => k.client_key.map .s
    | "cluster_ca_certificate" => k.cluster_ca_certificate.map .s
    | "config_path" => k.config_path.map .s
    | "config_context" => k.config_context.map .s
    | "in_cluster" => k.in_cluster.map .b
    | "load_config_file" => k.load_config_file.map .b
    | _ => none

/-- Go truthiness of a schema value: the `GetOk` "set to a non-zero value"
test. -/
def svalNonzero : SVal → Bool
  | .s v => v.length ≠ 0
  | .b v => v

/-- Model of `d.GetOk("kubernetes.0." ++ key)`: the value (zero when absent) and
whether it is set to a non-zero value.  The SDK does not apply `DefaultFunc`
to fields of a `TypeList` element, which is exactly the defect the provider's
`k8sGetOk` works around. -/
def dGetOkNested (d : ResourceData) (key : String) : SVal × Bool :=
  match kGetField d.kubernetes key with
  | some v => (v, svalNonzero v)
  | none => (zeroOf key, false)

/-- Model of `d.GetOkExists("kubernetes.0." ++ key)`: the value and whether it is
explicitly present in the configuration, zero values included. -/
def dGetOkExistsNested (d : ResourceData) (key : String) : SVal × Bool :=
  match kGetField d.kubernetes key with
  | some v => (v, true)
  | none => (zeroOf key, false)

/-- The `DefaultFunc` of each nested `kubernetes` field, as declared in
`kubernetesResource()` (`none` for `in_cluster`, which has no default). -/
def kubernetesDefaultFunc (key : String) (env : Env) : Option SVal :=
  match key with
  | "host" => some (.s (envDefaultS env "KUBE_HOST" ""))
  | "username" => some (.s (envDefaultS env "KUBE_USER" ""))
  | "password" => some (.s (envDefaultS env "KUBE_PASSWORD" ""))
  | "token" => some (.s (envDefaultS env "KUBE_BEARER_TOKEN" ""))
  | "insecure" => some (envDefaultB env "KUBE_INSECURE" false)
  | "client_certificate" => some (.s (envDefaultS env "KUBE_CLIENT_CERT_DATA" ""))
  | "client_key" => some (.s (envDefaultS env "KUBE_CLIENT_KEY_DATA" ""))
  | "cluster_ca_certificate" => some (.s (envDefaultS env "KUBE_CLUSTER_CA_CERT_DATA" ""))
  | "config_path" =>
      some (.s (multiEnvDefault env ["KUBE_CONFIG", "KUBECONFIG"] "~/.kube/config"))
  | "config_context" => some (.s (envDefaultS env "KUBE_CTX" ""))
  | "load_config_file" => some (envDefaultB env "KUBE_LOAD_CONFIG_FILE" true)
  | _ => none

/-- The truthiness recomputation `k8sGetOk` performs on a default value
(`ok = len(v) != 0` for strings, `ok = v` for bools). -/
def defaultOk : SVal → Bool
  | .s v => v.length ≠ 0
  | .b v => v

/-- Transliteration of the provider's `k8sGetOk`: `GetOk`, then for
bool-typed values a `GetOkExists` existence check, then — when still not ok
and the field has a `DefaultFunc` — explicit default resolution with
recomputed truthiness. -/
def k8sGetOk (env : Env) (d : ResourceData) (key : String) : SVal × Bool :=
  let p := dGetOkNested d key
  let p := match p.1 with
    | .b _ => dGetOkExistsNested d key
    | _ => p
  if ¬ p.2 then
    match kubernetesDefaultFunc key env with
    | some dv => (dv, defaultOk dv)
    | none => p
  else p

/-- Transliteration of the provider's `k8sGet`. -/
def k8sGet (env : Env) (d : ResourceData) (key : String) : SVal :=
  (k8sGetOk env d key).1

/-! ### go-homedir -/

/-- Modelled from the spec: `homedir.Dir()` reads the home directory.  Only
the `$HOME` lookup is representable here; the library's OS-level fallbacks
when `$HOME` is unset are summarised as the failure case. -/
def homedirDir (env : Env) : Except String String :=
  if env "HOME" ≠ "" then .ok (env "HOME") else .error "blank output when reading home directory"

/-- Model of `filepath.Join(dir, rest)` for the shapes arising in `homedir.Expand`
(`rest` is empty or starts with a path separator). -/
def filepathJoin (dir rest : String) : String :=
  if rest = "" then dir else dir ++ rest

/-- Model of `homedir.Expand`: paths not starting with `~` pass through; `~user/...`
forms fail with a dedicated error; `~` and `~/...` are joined onto the home
directory. -/
def homedirExpand (env : Env) (path : String) : Except String String :=
  match path.toList with
  | [] => .ok path
  | c :: rest =>
    if c ≠ '~' then .ok path
    else if h : rest = [] then
      match homedirDir env with
      | .error e => .error e
      | .ok dir => .ok (filepathJoin dir "")
    else
      if rest.head h ≠ '/' ∧ rest.head h ≠ '\\' then
        .error "cannot expand user-specific home dir"
      else
        match homedirDir env with
        | .error e => .error e
        | .ok dir => .ok (filepathJoin dir (String.mk rest))

/-! ### Go control-flow outcomes -/

/-- Kinds of Go runtime panic the provider can hit. -/
inductive Panic where
  | nilDeref
  | typeAssert
deriving DecidableEq, Repr

/-- Abnormal termination of an embedded Go function: an `error` return value
or a panic. -/
inductive GoStop where
  | gerr (e : String)
  | gpanic (p : Panic)
deriving DecidableEq, Repr

/-- Computation outcome for the embedded Go code: a value, or abnormal
termination. -/
def M (α : Type) : Type := Except GoStop α

/-- Go type assertion `v.(bool)`: panics on a non-bool dynamic value. -/
def asBool (v : SVal) : M Bool :=
  match v with
  | .b b => .ok b
  | .s _ => .error (.gpanic .typeAssert)

/-- Go type assertion `v.(string)`: panics on a non-string dynamic value. -/
def asString (v : SVal) : M String :=
  match v with
  | .s s => .ok s
  | .b _ => .error (.gpanic .typeAssert)

/-! ### Top-level (non-nested) accessors

For top-level fields the SDK applies `DefaultFunc` while reading the
configuration, so `d.Get` already sees explicit-value-or-default and
`d.GetOk` tests that resolved value for non-zeroness. -/

/-- Model of `d.GetOk` on a top-level string field with an `EnvDefaultFunc`. -/
def topGetOk (explicit : Option String) (envVal dflt : String) : String × Bool :=
  let v := explicit.getD (if envVal ≠ "" then envVal else dflt)
  (v, v ≠ "")

/-- Model of `strconv.ParseBool`, which the SDK's weak decoding applies when an
environment-variable default must fill a bool-typed field. -/
def strconvParseBool : String → Option Bool
  | "1" | "t" | "T" | "TRUE" | "true" | "True" => some true
  | "0" | "f" | "F" | "FALSE" | "false" | "False" => some false
  | _ => none

/-- Model of `d.Get("debug").(bool)`: explicit value, else parsed `HELM_DEBUG`, else
`false`. -/
def topDebug (env : Env) (d : ResourceData) : Bool :=
  d.debug.getD
    (if env "HELM_DEBUG" ≠ "" then (strconvParseBool (env "HELM_DEBUG")).getD false else false)

/-! ### getK8sConfig -/

/-- The `m.ConfigFlags` fields written by the credential section of
`getK8sConfig` (source lines 309-347). -/
inductive CFTarget where
  | Username
  | BearerToken
  | Insecure
  | CertFile
  | KeyFile
  | CAFile
  | ClusterName
deriving DecidableEq, Repr

/-- The credential assignments of `getK8sConfig`, in source order: which
nested key is looked up and which `m.ConfigFlags` field the value is written
to.  Note the `password` branch (line 316) writes `m.ConfigFlags.Username`,
the same target as the `username` branch (line 311). -/
def credAssignments : List (String × CFTarget) :=
  [("username", .Username),
   ("password", .Username),
   ("token", .BearerToken),
   ("insecure", .Insecure),
   ("client_certificate", .CertFile),
   ("client_key", .KeyFile),
   ("cluster_ca_certificate", .CAFile),
   ("host", .ClusterName)]

/-- Whether a target field is bool-typed (`Insecure` is the only one):
determines the Go type assertion performed in its branch. -/
def targetIsBool : CFTarget → Bool
  | .Insecure => true
  | _ => false

/-- Whether a branch's type assertion on the looked-up value succeeds. -/
def typeMatches (t : CFTarget) (v : SVal) : Bool :=
  match v with
  | .s _ => ¬ targetIsBool t
  | .b _ => targetIsBool t

/-- The store into a (non-nil) `ConfigFlags` performed by one credential
branch.  Only type-correct combinations occur, guarded by `typeMatches`. -/
def writeCF (t : CFTarget) (v : SVal) (cf : ConfigFlags) : ConfigFlags :=
  match t, v with
  | .Username, .s s => {cf with Username := some s}
  | .BearerToken, .s s => {cf with BearerToken := some s}
  | .CertFile, .s s => {cf with CertFile := some s}
  | .KeyFile, .s s => {cf with KeyFile := some s}
  | .CAFile, .s s => {cf with CAFile := some s}
  | .ClusterName, .s s => {cf with ClusterName := some s}
  | .Insecure, .b b => {cf with Insecure := some b}
  | _, _ => cf

/-- One credential branch: if the key resolves as present, Go first performs
the type assertion on the value and then writes through the `m.ConfigFlags`
pointer — a nil-pointer dereference when that pointer is still unassigned. -/
def credAssign (env : Env) (d : ResourceData) (m : Meta) (kv : String × CFTarget) : M Meta :=
  match k8sGetOk env d kv.1 with
  | (_, false) => .ok m
  | (v, true) =>
    if typeMatches kv.2 v then
      match m.ConfigFlags with
      | none => .error (.gpanic .nilDeref)
      | some cf => .ok {m with ConfigFlags := some (writeCF kv.2 v cf)}
    else .error (.gpanic .typeAssert)

/-- The credential section of `getK8sConfig` run over a list of remaining
assignments, in order; the first abnormal branch stops the sequence, exactly
as a Go panic would. -/
def credFold (env : Env) (d : ResourceData) : List (String × CFTarget) → Meta → M Meta
  | [], m => .ok m
  | kv :: rest, m =>
    match credAssign env d m kv with
    | .error s => .error s
    | .ok m2 => credFold env d rest m2

/-- The credential section of `getK8sConfig` (source lines 309-347). -/
def credStage (env : Env) (d : ResourceData) (m : Meta) : M Meta :=
  credFold env d credAssignments m

/-- The kubeconfig-path section of `getK8sConfig` (source lines 286-297):
consulted only when `in_cluster` is false and `load_config_file` is true
(short-circuit evaluation, as in the Go `&&`); the path, when present, is
home-expanded before being stored in `cf.KubeConfig`; expansion failure is
returned as an error (after a debug log). -/
def pathStage (env : Env) (d : ResourceData) (cf : ConfigFlags) : M ConfigFlags :=
  match asBool (k8sGet env d "in_cluster") with
  | .error s => .error s
  | .ok inCluster =>
    if ¬ inCluster then
      match asBool (k8sGet env d "load_config_file") with
      | .error s => .error s
      | .ok loadConfigFile =>
        if loadConfigFile then
          match k8sGetOk env d "config_path" with
          | (v, true) =>
            (match asString v with
             | .error s => .error s
             | .ok p =>
               match homedirExpand env p with
               | .error e => .error (.gerr e)
               | .ok expanded => .ok {cf with KubeConfig := some expanded})
          | (_, false) => .ok cf
        else .ok cf
    else .ok cf

/-- The `config_context` branch of `getK8sConfig` (source lines 299-302). -/
def ctxStage (env : Env) (d : ResourceData) (cf : ConfigFlags) : M ConfigFlags :=
  match k8sGetOk env d "config_context" with
  | (v, true) =>
    (match asString v with
     | .error s => .error s
     | .ok s => .ok {cf with Context := some s})
  | (_, false) => .ok cf

/-- The `helm_namespace` branch of `getK8sConfig` (source lines 304-307):
a top-level field, read with the SDK's ordinary `GetOk`. -/
def nsStage (env : Env) (d : ResourceData) (cf : ConfigFlags) : ConfigFlags :=
  match topGetOk d.helm_namespace (env "HELM_NAMESPACE") "default" with
  | (v, true) => {cf with Namespace := some v}
  | (_, false) => cf

/-- Body of `getK8sConfig` as a computation: builds a fresh local `cf`, runs the
stages above in source order, and only as its final statement assigns
`m.ConfigFlags = cf`. -/
def getK8sConfigM (env : Env) (d : ResourceData) (m : Meta) : M Meta :=
  match pathStage env d NewConfigFlags with
  | .error s => .error s
  | .ok cf1 =>
    match ctxStage env d cf1 with
    | .error s => .error s
    | .ok cf2 =>
      let cf3 := nsStage env d cf2
      match credStage env d m with
      | .error s => .error s
      | .ok m2 => .ok {m2 with ConfigFlags := some cf3}

/-- Outcome of `getK8sConfig` as seen by its caller: normal return, an
`error` return value (the state `m` is unchanged, since the only error exit
precedes every write to `m`), or a panic. -/
inductive KRes where
  | ok (m : Meta)
  | err (e : String) (m : Meta)
  | panic (p : Panic)
deriving DecidableEq, Repr

/-- Transliteration of `getK8sConfig` (source lines 282-351). -/
def getK8sConfig (env : Env) (d : ResourceData) (m : Meta) : KRes :=
  match getK8sConfigM env d m with
  | .ok m2 => .ok m2
  | .error (.gerr e) => .err e m
  | .error (.gpanic p) => .panic p

/-! ### buildSettings, providerConfigure -/

/-- Outcome of `buildSettings`: it returns `nil` on every normal path (its
only `return` statement is `return nil`), so the caller observes either the
mutated `Meta` or a panic. -/
inductive BRes where
  | ok (m : Meta)
  | panic (p : Panic)
deriving DecidableEq, Repr

/-- Transliteration of `buildSettings` (source lines 218-248): fills `cli.EnvSettings` and
`HelmDriver` from the top-level fields, then calls `m.getK8sConfig(d)` and
*discards its returned error* (source line 245). -/
def buildSettings (env : Env) (paths : HelmPaths) (d : ResourceData) (m : Meta) : BRes :=
  let settings : EnvSettings := { Debug := topDebug env d }
  let settings :=
    match topGetOk d.plugins_path (env "HELM_PLUGINS") paths.dataPathPlugins with
    | (v, true) => {settings with PluginsDirectory := v}
    | (_, false) => settings
  let settings :=
    match topGetOk d.registry_config_path (env "HELM_REGISTRY_CONFIG") paths.configPathRegistry with
    | (v, true) => {settings with RegistryConfig := v}
    | (_, false) => settings
  let settings :=
    match topGetOk d.repository_config_path (env "HELM_REPOSITORY_CONFIG")
        paths.configPathRepositories with
    | (v, true) => {settings with RepositoryConfig := v}
    | (_, false) => settings
  let settings :=
    match topGetOk d.repository_cache (env "HELM_REPOSITORY_CACHE") paths.cachePathRepository with
    | (v, true) => {settings with RepositoryCache := v}
    | (_, false) => settings
  let m :=
    match topGetOk d.helm_driver (env "HELM_DRIVER") "secret" with
    | (v, true) => {m with HelmDriver := v}
    | (_, false) => m
  let m := {m with Settings := some settings}
  match getK8sConfig env d m with
  | .ok m2 => .ok m2
  | .err _ _ => .ok m
  | .panic p => .panic p

/-- Outcome of `providerConfigure`: the built `Meta` with a nil error, a
non-nil error, or a panic. -/
inductive PRes where
  | ok (m : Meta)
  | err (e : String)
  | panic (p : Panic)
deriving DecidableEq, Repr

/-- Transliteration of `providerConfigure` (source lines 207-216): builds `&Meta{data: d}`
(all other fields zero/nil) and runs `buildSettings`; since `buildSettings`
always returns a nil error, the error branch is dead and the result is the
`Meta` or a propagated panic. -/
def providerConfigure (env : Env) (paths : HelmPaths) (d : ResourceData) : PRes :=
  match buildSettings env paths d {} with
  | .ok m => .ok m
  | .panic p => .panic p

/-! ### helm_driver validation -/

/-- The enumerated storage drivers of the `helm_driver` `ValidateFunc`. -/
def helmDrivers : List String := ["configmap", "secret", "memory"]

/-- Go's `strings.ToLower` (an external library function), modelled as a
character-wise ASCII lowercase map — the three driver names it is compared
against are ASCII. -/
def stringsToLower (s : String) : String := ⟨s.data.map Char.toLower⟩

/-- The `helm_driver` `ValidateFunc` (source lines 72-88): lowercases the
value, accepts it when it matches one of the three drivers, and otherwise
appends the single error `"<value> must be a valid storage driver"` built
from the lowercased value.  Returns `(warns, errs)`. -/
def helmDriverValidate (val : String) : List String × List String :=
  let v := stringsToLower val
  if helmDrivers.contains v then ([], [])
  else ([], [v ++ " must be a valid storage driver"])

/-! ### GetHelmConfiguration -/

/-- Transliteration of `GetHelmConfiguration` (source lines 354-364), parameterized by the
external `action.Configuration.Init` (whose handle type `H` is opaque here):
under the provider mutex it creates a fresh configuration, calls `Init`
exactly once with the stored `ConfigFlags`, the requested namespace and the
stored driver, returns `(nil, err)` when `Init` fails and the fresh handle
with a nil error when it succeeds. -/
def GetHelmConfiguration {H : Type}
    (initFn : Option ConfigFlags → String → String → Except String H)
    (m : Meta) (ns : String) : Except String H :=
  match initFn m.ConfigFlags ns m.HelmDriver with
  | .error e => .error e
  | .ok h => .ok h

/-! ### Result predicates and schema tables used in the statements -/

/-- Whether a `getK8sConfig` outcome is a normal return. -/
def KRes.isOk : KRes → Bool
  | .ok _ => true
  | _ => false

/-- Whether a `getK8sConfig` outcome is an `error` return value. -/
def KRes.isErr : KRes → Bool
  | .err _ _ => true
  | _ => false

/-- Whether a `providerConfigure` outcome is a normal (nil-error) return. -/
def PRes.isOk : PRes → Bool
  | .ok _ => true
  | _ => false

/-- Whether a schema value is string-typed. -/
def SVal.isStr : SVal → Bool
  | .s _ => true
  | .b _ => false

/-- The string-typed keys of the nested `kubernetes` schema. -/
def k8sStringKeys : List String :=
  ["host", "username", "password", "token", "client_certificate", "client_key",
   "cluster_ca_certificate", "config_path", "config_context"]

/-- The single environment variable backing each nested string key's
default (`config_path`, which has two, and the bool keys are excluded). -/
def k8sKeyEnvVar : String → Option String
  | "host" => some "KUBE_HOST"
  | "username" => some "KUBE_USER"
  | "password" => some "KUBE_PASSWORD"
  | "token" => some "KUBE_BEARER_TOKEN"
  | "client_certificate" => some "KUBE_CLIENT_CERT_DATA"
  | "client_key" => some "KUBE_CLIENT_KEY_DATA"
  | "cluster_ca_certificate" => some "KUBE_CLUSTER_CA_CERT_DATA"
  | "config_context" => some "KUBE_CTX"
  | _ => none

/-! ### Concrete sample inputs used by witnesses and counterexamples -/

/-- The empty environment: every variable unset. -/
def envEmpty : Env := fun _ => ""

/-- An environment with only `$HOME` set. -/
def envHome : Env := fun k => if k = "HOME" then "/root" else ""

/-- An environment with only `KUBE_USER` set. -/
def envKubeUser : Env := fun k => if k = "KUBE_USER" then "alice" else ""

/-- Concrete `helmpath` defaults for sample runs. -/
def paths0 : HelmPaths :=
  { dataPathPlugins := "/hp/data/plugins"
    configPathRegistry := "/hp/cfg/registry.json"
    configPathRepositories := "/hp/cfg/repositories.yaml"
    cachePathRepository := "/hp/cache/repository" }

/-- Configuration with both `username` and `password` set in the nested
block. -/
def dUserPass : ResourceData :=
  { kubernetes := some { username := some "alice", password := some "hunter2" } }

/-- Configuration whose kubeconfig path uses the non-expandable `~user/`
shorthand. -/
def dBadPath : ResourceData :=
  { kubernetes := some { config_path := some "~user/cfg" } }

/-- Configuration with `username` present and a non-expandable kubeconfig
path. -/
def dUserBadPath : ResourceData :=
  { kubernetes := some { username := some "u", config_path := some "~user/cfg" } }

/-- Configuration with only `host` set in the nested block. -/
def dHost : ResourceData :=
  { kubernetes := some { host := some "h" } }

/-- The end-to-end scenario configuration of the spec: `helm_driver="secret"`,
`helm_namespace="ops"`, nested `kubernetes.insecure=true`. -/
def dScenario : ResourceData :=
  { helm_driver := some "secret", helm_namespace := some "ops",
    kubernetes := some { insecure := some true } }

/-- Configuration whose nested `username` is explicitly the empty string. -/
def dEmptyUser : ResourceData :=
  { kubernetes := some { username := some "" } }

/-- Configuration with the nested booleans explicitly `false`. -/
def dFalseBools : ResourceData :=
  { kubernetes := some
      { insecure := some false, in_cluster := some false, load_config_file := some false } }

/-- The nested string keys backed by a single environment variable. -/
def k8sSingleEnvKeys : List String :=
  ["host", "username", "password", "token", "client_certificate", "client_key",
   "cluster_ca_certificate", "config_context"]

/-- An environment with the two boolean-backed variables set (to strings, as
all environment values are). -/
def envBoolVars : Env :=
  fun k => if k = "KUBE_INSECURE" then "true"
    else if k = "KUBE_LOAD_CONFIG_FILE" then "false" else ""

/-- Configuration whose nested `username` is explicitly `"bob"`. -/
def dUserBob : ResourceData :=
  { kubernetes := some { username := some "bob" } }

/-- An environment with only `KUBE_CONFIG` set. -/
def envKubeConfig : Env := fun k => if k = "KUBE_CONFIG" then "/tmp/kc1" else ""

/-- An environment with only `KUBECONFIG` set. -/
def envKubeconfigOnly : Env := fun k => if k = "KUBECONFIG" then "/tmp/kc2" else ""

/-! ## Helper lemmas -/

theorem string_length_ne_zero {v : String} (h : v ≠ "") : v.length ≠ 0 := by
  intro h0
  apply h
  cases v with
  | mk data =>
    cases data with
    | nil => rfl
    | cons c cs => simp [String.length] at h0

/-- The value produced by `k8sGetOk` is string-typed whenever the key's
schema type, explicit value and default are all string-typed. -/
theorem k8sGetOk_isStr (env : Env) (d : ResourceData) (key : String)
    (hb : k8sKeyIsBool key = false)
    (hfield : ∀ v, kGetField d.kubernetes key = some v → v.isStr = true)
    (hdef : ∀ v, kubernetesDefaultFunc key env = some v → v.isStr = true) :
    ((k8sGetOk env d key).1).isStr = true := by
  have hz : zeroOf key = .s "" := by simp [zeroOf, hb]
  unfold k8sGetOk dGetOkNested
  cases hk : kGetField d.kubernetes key with
  | none =>
    simp only [hz]
    cases hd : kubernetesDefaultFunc key env with
    | none => simp [hd, SVal.isStr]
    | some dv =>
      have := hdef dv hd
      simp [hd, this]
  | some v =>
    have hv := hfield v hk
    cases v with
    | b bv => simp [SVal.isStr] at hv
    | s sv =>
      cases hd : kubernetesDefaultFunc key env with
      | none => simp [hd, SVal.isStr]
      | some dv =>
        have := hdef dv hd
        by_cases hnz : svalNonzero (.s sv) = true
        · simp [hnz, SVal.isStr]
        · cases dv <;> simp_all [SVal.isStr]

/-- The value produced by `k8sGetOk` is bool-typed whenever the key's schema
type, explicit value and default are all bool-typed. -/
theorem k8sGetOk_isBool (env : Env) (d : ResourceData) (key : String)
    (hb : k8sKeyIsBool key = true)
    (hfield : ∀ v, kGetField d.kubernetes key = some v → v.isStr = false)
    (hdef : ∀ v, kubernetesDefaultFunc key env = some v → v.isStr = false) :
    ((k8sGetOk env d key).1).isStr = false := by
  have hz : zeroOf key = .b false := by simp [zeroOf, hb]
  unfold k8sGetOk dGetOkNested dGetOkExistsNested
  cases hk : kGetField d.kubernetes key with
  | none =>
    simp only [hz]
    cases hd : kubernetesDefaultFunc key env with
    | none => simp [hd, SVal.isStr]
    | some dv =>
      have := hdef dv hd
      cases dv <;> simp_all [SVal.isStr]
  | some v =>
    have hv := hfield v hk
    cases v with
    | s sv => simp [SVal.isStr] at hv
    | b bv =>
      cases hd : kubernetesDefaultFunc key env with
      | none => simp [hd, SVal.isStr]
      | some dv =>
        have := hdef dv hd
        by_cases hnz : bv = true
        · simp [hnz, svalNonzero, SVal.isStr]
        · cases dv <;> simp_all [svalNonzero, SVal.isStr]

theorem exists_str_of_isStr {v : SVal} (h : v.isStr = true) : ∃ s, v = .s s := by
  cases v with
  | s s => exact ⟨s, rfl⟩
  | b b => simp [SVal.isStr] at h

theorem exists_bool_of_not_isStr {v : SVal} (h : v.isStr = false) : ∃ b, v = .b b := by
  cases v with
  | s s => simp [SVal.isStr] at h
  | b b => exact ⟨b, rfl⟩

/-- Every string-typed nested key resolves to a string-typed value. -/
theorem k8sGetOk_str_of_mem (env : Env) (d : ResourceData) (key : String)
    (hmem : key ∈ k8sStringKeys) : ((k8sGetOk env d key).1).isStr = true := by
  fin_cases hmem <;>
  · apply k8sGetOk_isStr
    · decide
    · intro v hv
      rcases hkb : d.kubernetes with _ | kb <;> rw [hkb] at hv <;> simp [kGetField] at hv
      obtain ⟨u, hu, rfl⟩ := hv
      rfl
    · intro v hv
      simp only [kubernetesDefaultFunc, Option.some.injEq] at hv
      subst hv
      rfl

/-- The `in_cluster` key always resolves to a bool-typed value. -/
theorem k8sGetOk_bool_in_cluster (env : Env) (d : ResourceData) :
    ((k8sGetOk env d "in_cluster").1).isStr = false := by
  apply k8sGetOk_isBool
  · decide
  · intro v hv
    rcases hkb : d.kubernetes with _ | kb <;> rw [hkb] at hv <;> simp [kGetField] at hv
    rcases hv with ⟨hu, rfl⟩ | ⟨hu, rfl⟩ <;> rfl
  · intro v hv
    simp [kubernetesDefaultFunc] at hv

/-- With `KUBE_INSECURE` unset, `insecure` resolves to a bool-typed value. -/
theorem k8sGetOk_bool_insecure (env : Env) (d : ResourceData)
    (h : env "KUBE_INSECURE" = "") : ((k8sGetOk env d "insecure").1).isStr = false := by
  apply k8sGetOk_isBool
  · decide
  · intro v hv
    rcases hkb : d.kubernetes with _ | kb <;> rw [hkb] at hv <;> simp [kGetField] at hv
    rcases hv with ⟨hu, rfl⟩ | ⟨hu, rfl⟩ <;> rfl
  · intro v hv
    simp only [kubernetesDefaultFunc, Option.some.injEq] at hv
    subst hv
    simp [envDefaultB, h, SVal.isStr]

/-- With `KUBE_LOAD_CONFIG_FILE` unset, `load_config_file` resolves to a
bool-typed value. -/
theorem k8sGetOk_bool_load_config_file (env : Env) (d : ResourceData)
    (h : env "KUBE_LOAD_CONFIG_FILE" = "") :
    ((k8sGetOk env d "load_config_file").1).isStr = false := by
  apply k8sGetOk_isBool
  · decide
  · intro v hv
    rcases hkb : d.kubernetes with _ | kb <;> rw [hkb] at hv <;> simp [kGetField] at hv
    rcases hv with ⟨hu, rfl⟩ | ⟨hu, rfl⟩ <;> rfl
  · intro v hv
    simp only [kubernetesDefaultFunc, Option.some.injEq] at hv
    subst hv
    simp [envDefaultB, h, SVal.isStr]

theorem typeMatches_of_isStr {t : CFTarget} {v : SVal} (ht : targetIsBool t = false)
    (hv : v.isStr = true) : typeMatches t v = true := by
  cases v with
  | s s => simp [typeMatches, ht]
  | b b => simp [SVal.isStr] at hv

theorem typeMatches_of_isBool {t : CFTarget} {v : SVal} (ht : targetIsBool t = true)
    (hv : v.isStr = false) : typeMatches t v = true := by
  cases v with
  | s s => simp [SVal.isStr] at hv
  | b b => simp [typeMatches, ht]

/-- With a nil `ConfigFlags` pointer, any present credential key makes the
credential section stop with a panic. -/
theorem credFold_stops (env : Env) (d : ResourceData) :
    ∀ (l : List (String × CFTarget)) (m : Meta), m.ConfigFlags = none →
      (l.any fun kv => (k8sGetOk env d kv.1).2) = true →
      ∃ p, credFold env d l m = .error (.gpanic p) := by
  intro l
  induction l with
  | nil => intro m _ h; simp at h
  | cons kv rest ih =>
    intro m hm h
    rcases hok : k8sGetOk env d kv.1 with ⟨v, ok⟩
    cases ok with
    | false =>
      have hrest : (rest.any fun kv => (k8sGetOk env d kv.1).2) = true := by
        simp only [List.any_cons, hok] at h
        simpa using h
      obtain ⟨p, hp⟩ := ih m hm hrest
      exact ⟨p, by simp [credFold, credAssign, hok, hp]⟩
    | true =>
      by_cases ht : typeMatches kv.2 v = true
      · exact ⟨.nilDeref, by simp [credFold, credAssign, hok, ht, hm]⟩
      · exact ⟨.typeAssert, by simp [credFold, credAssign, hok, ht, hm]⟩

/-- With a nil `ConfigFlags` pointer and type-correct values throughout, the
first present credential key panics with the nil-pointer dereference. -/
theorem credFold_nilDeref (env : Env) (d : ResourceData) :
    ∀ (l : List (String × CFTarget)) (m : Meta), m.ConfigFlags = none →
      (∀ kv ∈ l, (k8sGetOk env d kv.1).2 = true →
        typeMatches kv.2 (k8sGetOk env d kv.1).1 = true) →
      (l.any fun kv => (k8sGetOk env d kv.1).2) = true →
      credFold env d l m = .error (.gpanic .nilDeref) := by
  intro l
  induction l with
  | nil => intro m _ _ h; simp at h
  | cons kv rest ih =>
    intro m hm htm h
    rcases hok : k8sGetOk env d kv.1 with ⟨v, ok⟩
    cases ok with
    | false =>
      have hrest : (rest.any fun kv => (k8sGetOk env d kv.1).2) = true := by
        simp only [List.any_cons, hok] at h
        simpa using h
      have htm' : ∀ kv ∈ rest, (k8sGetOk env d kv.1).2 = true →
          typeMatches kv.2 (k8sGetOk env d kv.1).1 = true := by
        intro x hx
        exact htm x (List.mem_cons_of_mem _ hx)
      simp [credFold, credAssign, hok, ih m hm htm' hrest]
    | true =>
      have ht : typeMatches kv.2 v = true := by
        have := htm kv (List.mem_cons_self _ _) (by simp [hok])
        simpa [hok] using this
      simp [credFold, credAssign, hok, ht, hm]

/-- With `KUBE_LOAD_CONFIG_FILE` unset the path section cannot panic: it
returns normally or with the expansion error. -/
theorem pathStage_ok_or_gerr (env : Env) (d : ResourceData) (cf : ConfigFlags)
    (hload : env "KUBE_LOAD_CONFIG_FILE" = "") :
    (∃ cf2, pathStage env d cf = .ok cf2) ∨ (∃ e, pathStage env d cf = .error (.gerr e)) := by
  obtain ⟨b1, hb1⟩ := exists_bool_of_not_isStr (k8sGetOk_bool_in_cluster env d)
  have hg1 : k8sGet env d "in_cluster" = .b b1 := hb1
  cases b1 with
  | true => exact .inl ⟨cf, by simp [pathStage, hg1, asBool]⟩
  | false =>
    obtain ⟨b2, hb2⟩ := exists_bool_of_not_isStr (k8sGetOk_bool_load_config_file env d hload)
    have hg2 : k8sGet env d "load_config_file" = .b b2 := hb2
    cases b2 with
    | false => exact .inl ⟨cf, by simp [pathStage, hg1, hg2, asBool]⟩
    | true =>
      rcases hok : k8sGetOk env d "config_path" with ⟨v, ok⟩
      cases ok with
      | false => exact .inl ⟨cf, by simp [pathStage, hg1, hg2, asBool, hok]⟩
      | true =>
        have hstr : v.isStr = true := by
          have := k8sGetOk_str_of_mem env d "config_path" (by decide)
          simpa [hok] using this
        obtain ⟨s, rfl⟩ := exists_str_of_isStr hstr
        cases hexp : homedirExpand env s with
        | error e =>
          exact .inr ⟨e, by simp [pathStage, hg1, hg2, asBool, hok, asString, hexp]⟩
        | ok expanded =>
          exact .inl ⟨{cf with KubeConfig := some expanded},
            by simp [pathStage, hg1, hg2, asBool, hok, asString, hexp]⟩

/-- The `config_context` branch never fails: its value is always
string-typed. -/
theorem ctxStage_ok (env : Env) (d : ResourceData) (cf : ConfigFlags) :
    ∃ cf2, ctxStage env d cf = .ok cf2 := by
  rcases hok : k8sGetOk env d "config_context" with ⟨v, ok⟩
  cases ok with
  | false => exact ⟨cf, by simp [ctxStage, hok]⟩
  | true =>
    have hstr : v.isStr = true := by
      have := k8sGetOk_str_of_mem env d "config_context" (by decide)
      simpa [hok] using this
    obtain ⟨s, rfl⟩ := exists_str_of_isStr hstr
    exact ⟨{cf with Context := some s}, by simp [ctxStage, hok, asString]⟩

/-- Every credential assignment whose value is present carries a value of
the type its branch asserts, provided `KUBE_INSECURE` is unset. -/
theorem credAssignments_typed (env : Env) (d : ResourceData)
    (hins : env "KUBE_INSECURE" = "") :
    ∀ kv ∈ credAssignments, (k8sGetOk env d kv.1).2 = true →
      typeMatches kv.2 (k8sGetOk env d kv.1).1 = true := by
  intro kv hmem _
  fin_cases hmem
  · exact typeMatches_of_isStr (by decide) (k8sGetOk_str_of_mem env d "username" (by decide))
  · exact typeMatches_of_isStr (by decide) (k8sGetOk_str_of_mem env d "password" (by decide))
  · exact typeMatches_of_isStr (by decide) (k8sGetOk_str_of_mem env d "token" (by decide))
  · exact typeMatches_of_isBool (by decide) (k8sGetOk_bool_insecure env d hins)
  · exact typeMatches_of_isStr (by decide)
      (k8sGetOk_str_of_mem env d "client_certificate" (by decide))
  · exact typeMatches_of_isStr (by decide) (k8sGetOk_str_of_mem env d "client_key" (by decide))
  · exact typeMatches_of_isStr (by decide)
      (k8sGetOk_str_of_mem env d "cluster_ca_certificate" (by decide))
  · exact typeMatches_of_isStr (by decide) (k8sGetOk_str_of_mem env d "host" (by decide))

/-- C2 (amended): whenever at least one of the eight credential fields
(username, password, token, insecure, client_certificate, client_key,
cluster_ca_certificate, host) is present — explicitly or via its
environment default — `getK8sConfig` never completes normally, because the
credential branches write through the still-nil `Meta.ConfigFlags` pointer;
and when the kubeconfig-path expansion has not already failed (and the two
boolean environment defaults, whose raw string values would make the branch
fail its type assertion instead, are unset) the failure is specifically the
nil-pointer dereference. -/
theorem c2_present_creds_nil_deref (env : Env) (d : ResourceData) (m : Meta)
    (hcf : m.ConfigFlags = none)
    (hpresent : (credAssignments.any fun kv => (k8sGetOk env d kv.1).2) = true) :
    KRes.isOk (getK8sConfig env d m) = false ∧
    (env "KUBE_INSECURE" = "" → env "KUBE_LOAD_CONFIG_FILE" = "" →
      KRes.isErr (getK8sConfig env d m) = false →
      getK8sConfig env d m = KRes.panic .nilDeref) := by
  constructor
  · obtain ⟨p, hp⟩ := credFold_stops env d credAssignments m hcf hpresent
    unfold getK8sConfig getK8sConfigM
    cases h1 : pathStage env d NewConfigFlags with
    | error s => cases s <;> simp [KRes.isOk]
    | ok cf1 =>
      cases h2 : ctxStage env d cf1 with
      | error s => cases s <;> simp [h2, KRes.isOk]
      | ok cf2 => simp [h2, credStage, hp, KRes.isOk]
  · intro hins hload hnoterr
    rcases pathStage_ok_or_gerr env d NewConfigFlags hload with ⟨cf1, h1⟩ | ⟨e, h1⟩
    · obtain ⟨cf2, h2⟩ := ctxStage_ok env d cf1
      have hcred := credFold_nilDeref env d credAssignments m hcf
        (credAssignments_typed env d hins) hpresent
      unfold getK8sConfig getK8sConfigM
      simp [h1, h2, credStage, hcred]
    · exfalso
      unfold getK8sConfig getK8sConfigM at hnoterr
      simp [h1, KRes.isErr] at hnoterr

/-- C2 counterexample: with `username` present but a kubeconfig path whose
`~user/` shorthand cannot be expanded, `getK8sConfig` returns the expansion
error — an ordinary `error` return, not a nil-pointer dereference — so the
claim "resolution hits a nil-pointer dereference rather than completing or
returning an Error" is false as universally stated. -/
theorem c2_counterexample :
    (k8sGetOk envEmpty dUserBadPath "username").2 = true ∧
    getK8sConfig envEmpty dUserBadPath {} =
      KRes.err "cannot expand user-specific home dir" {} := by
  constructor
  · decide
  · rfl

/-- Witness for `c2_present_creds_nil_deref` at a concrete input: `host` set,
`$HOME` available, no other variables — the run panics with the nil-pointer
dereference. -/
theorem c2_witness :
    ({} : Meta).ConfigFlags = none ∧
    (credAssignments.any fun kv => (k8sGetOk envHome dHost kv.1).2) = true ∧
    getK8sConfig envHome dHost {} = KRes.panic .nilDeref := by
  refine ⟨rfl, by decide, ?_⟩
  exact (c2_present_creds_nil_deref envHome dHost {} rfl (by decide)).2 rfl rfl (by decide)

/-- C1 (code bug): the claim requires `username` and `password` to be stored
in two distinct `ConfigFlags` target fields, but the `password` branch of
`getK8sConfig` (source line 316) writes the `Username` field, the same
target as the `username` branch (line 311): running the credential section
with `username="alice"`, `password="hunter2"` (over a hypothetically
non-nil `ConfigFlags`, since the full path panics first) leaves
`Username = some "hunter2"` and the value `"alice"` stored nowhere. -/
theorem c1_password_overwrites_username :
    credAssignments.lookup "username" = some CFTarget.Username ∧
    credAssignments.lookup "password" = some CFTarget.Username ∧
    credStage envEmpty dUserPass { ConfigFlags := some NewConfigFlags } =
      .ok { ConfigFlags := some { Username := some "hunter2" } } := by
  refine ⟨by decide, by decide, by rfl⟩

/-- C3 (code bug): when kubeconfig-path expansion fails, `getK8sConfig` does
return the error, but `buildSettings` discards it (source line 245 calls
`m.getK8sConfig(d)` without using the result), so `providerConfigure`
reports success — the claim that the failure is propagated as a non-nil
error out of the provider-configuration entry point fails on the code. -/
theorem c3_expand_error_swallowed :
    getK8sConfig envEmpty dBadPath {} =
      KRes.err "cannot expand user-specific home dir" {} ∧
    PRes.isOk (providerConfigure envEmpty paths0 dBadPath) = true := by
  constructor
  · rfl
  · rfl

/-- C7 (code bug): in the spec's end-to-end scenario
(`helm_driver="secret"`, `helm_namespace="ops"`, `kubernetes.insecure=true`,
no configuration-related environment variables), provider configuration does
not succeed: the `insecure` branch writes through the still-nil
`Meta.ConfigFlags` pointer, so resolution panics with a nil-pointer
dereference instead of producing the resolved settings and a usable
`GetHelmConfiguration` handle. -/
theorem c7_scenario_panics :
    providerConfigure envHome paths0 dScenario = PRes.panic .nilDeref := by
  rfl

/-- C4: the `helm_driver` validation accepts exactly the three driver names
compared case-insensitively (the input is lowercased before comparison), and
every other input yields exactly one validation error whose message names
the (lowercased) offending value. -/
theorem c4_driver_validation (v : String) :
    (stringsToLower v ∈ helmDrivers → helmDriverValidate v = ([], [])) ∧
    (stringsToLower v ∉ helmDrivers →
      helmDriverValidate v = ([], [stringsToLower v ++ " must be a valid storage driver"])) := by
  constructor
  · intro h
    simp [helmDriverValidate, h]
  · intro h
    simp [helmDriverValidate, h]

/-- Witness for `c4_driver_validation`: an arbitrary casing of an accepted
driver passes with no errors, and an invalid value fails with exactly the
one message naming it. -/
theorem c4_witness :
    helmDriverValidate "SeCrEt" = ([], []) ∧
    helmDriverValidate "ConfigMap" = ([], []) ∧
    helmDriverValidate "MEMORY" = ([], []) ∧
    helmDriverValidate "etcd" = ([], ["etcd must be a valid storage driver"]) := by
  refine ⟨(c4_driver_validation "SeCrEt").1 (by decide),
    (c4_driver_validation "ConfigMap").1 (by decide),
    (c4_driver_validation "MEMORY").1 (by decide),
    (c4_driver_validation "etcd").2 (by decide)⟩

/-- C5: for each boolean field of the nested `kubernetes` block, an
explicitly supplied `false` is detected by the `GetOkExists` existence check
and returned as `(false, true)` — for every environment, so the field's
default function can never replace the explicit `false`. -/
theorem c5_explicit_false_bools (env : Env) (d : ResourceData) (kb : KubernetesBlock)
    (hkb : d.kubernetes = some kb) :
    (kb.insecure = some false → k8sGetOk env d "insecure" = (.b false, true)) ∧
    (kb.in_cluster = some false → k8sGetOk env d "in_cluster" = (.b false, true)) ∧
    (kb.load_config_file = some false → k8sGetOk env d "load_config_file" = (.b false, true)) := by
  refine ⟨?_, ?_, ?_⟩ <;> intro h <;>
    simp [k8sGetOk, dGetOkNested, dGetOkExistsNested, kGetField, hkb, h, svalNonzero]

/-- Witness for `c5_explicit_false_bools`: explicit `false` values survive
even in an environment whose boolean variables are set to differing
values. -/
theorem c5_witness :
    k8sGetOk envBoolVars dFalseBools "insecure" = (.b false, true) ∧
    k8sGetOk envBoolVars dFalseBools "in_cluster" = (.b false, true) ∧
    k8sGetOk envBoolVars dFalseBools "load_config_file" = (.b false, true) := by
  have h := c5_explicit_false_bools envBoolVars dFalseBools
    { insecure := some false, in_cluster := some false, load_config_file := some false } rfl
  exact ⟨h.1 rfl, h.2.1 rfl, h.2.2 rfl⟩

/-- C6 counterexample: an explicitly-supplied *empty* string in the nested
block is not the resolved value when the field's environment variable is
set — `GetOk`'s non-zero test treats it as unset and the environment layer
wins, contradicting "an explicit configuration-block value is the resolved
value regardless of any environment variable" as universally stated. -/
theorem c6_counterexample :
    dEmptyUser.kubernetes = some { username := some "" } ∧
    k8sGetOk envKubeUser dEmptyUser "username" = (.s "alice", true) ∧
    k8sGetOk envKubeUser dEmptyUser "username" ≠ (.s "", true) := by
  refine ⟨rfl, by decide, by decide⟩

/-- C6 (amended): the three-layer precedence (explicit configuration value,
then environment variable, then hard-coded default) holds for the scalar
fields, with the proviso forced by the counterexample: a nested string field
explicitly set to the empty string is treated as unset and falls through to
the environment/default layers.  Conjuncts: (1) explicit non-empty nested
string wins for every environment; (2) for an unset nested string field the
environment variable wins when set, else the (empty) hard default leaves the
field unresolved; (3) an explicit nested `insecure` wins for every
environment; (4) for unset `insecure` the environment variable's (raw
string) value wins when set, else the hard default `false`; (5)-(7) the same
precedence for top-level fields via `topGetOk` (the accessor every top-level
string field of `buildSettings` and `nsStage` goes through); (8)-(10) the
same for the `debug` field; (11)-(12) explicit and unset `in_cluster` (which
has no environment variable, so unset resolves to the zero default);
(13)-(14) explicit `load_config_file` wins for every environment, and for
the unset field the environment variable's (raw string) value wins, else the
hard default `true`; (15) for unset `config_path` the dual environment
variables win in order, else the hard default `~/.kube/config`. -/
theorem c6_precedence :
    (∀ (env : Env) (d : ResourceData) (kb : KubernetesBlock) (key : String) (v : String),
      d.kubernetes = some kb → key ∈ k8sStringKeys →
      kGetField (some kb) key = some (.s v) → v ≠ "" →
      k8sGetOk env d key = (.s v, true)) ∧
    (∀ (env : Env) (d : ResourceData) (key evar : String),
      key ∈ k8sSingleEnvKeys → k8sKeyEnvVar key = some evar →
      kGetField d.kubernetes key = none →
      ((env evar ≠ "" → k8sGetOk env d key = (.s (env evar), true)) ∧
       (env evar = "" → k8sGetOk env d key = (.s "", false)))) ∧
    (∀ (env : Env) (d : ResourceData) (kb : KubernetesBlock) (b : Bool),
      d.kubernetes = some kb → kb.insecure = some b →
      k8sGetOk env d "insecure" = (.b b, true)) ∧
    (∀ (env : Env) (d : ResourceData),
      kGetField d.kubernetes "insecure" = none →
      ((env "KUBE_INSECURE" ≠ "" →
        k8sGetOk env d "insecure" = (.s (env "KUBE_INSECURE"), true)) ∧
       (env "KUBE_INSECURE" = "" → k8sGetOk env d "insecure" = (.b false, false)))) ∧
    (∀ ex envv df : String, (topGetOk (some ex) envv df).1 = ex) ∧
    (∀ envv df : String, envv ≠ "" → topGetOk none envv df = (envv, true)) ∧
    (∀ df : String, topGetOk none "" df = (df, decide (df ≠ ""))) ∧
    (∀ (env : Env) (d : ResourceData) (b : Bool), d.debug = some b → topDebug env d = b) ∧
    (∀ (env : Env) (d : ResourceData) (b : Bool), d.debug = none →
      strconvParseBool (env "HELM_DEBUG") = some b → topDebug env d = b) ∧
    (∀ (env : Env) (d : ResourceData), d.debug = none → env "HELM_DEBUG" = "" →
      topDebug env d = false) ∧
    (∀ (env : Env) (d : ResourceData) (kb : KubernetesBlock) (b : Bool),
      d.kubernetes = some kb → kb.in_cluster = some b →
      k8sGetOk env d "in_cluster" = (.b b, true)) ∧
    (∀ (env : Env) (d : ResourceData),
      kGetField d.kubernetes "in_cluster" = none →
      k8sGetOk env d "in_cluster" = (.b false, false)) ∧
    (∀ (env : Env) (d : ResourceData) (kb : KubernetesBlock) (b : Bool),
      d.kubernetes = some kb → kb.load_config_file = some b →
      k8sGetOk env d "load_config_file" = (.b b, true)) ∧
    (∀ (env : Env) (d : ResourceData),
      kGetField d.kubernetes "load_config_file" = none →
      ((env "KUBE_LOAD_CONFIG_FILE" ≠ "" →
        k8sGetOk env d "load_config_file" = (.s (env "KUBE_LOAD_CONFIG_FILE"), true)) ∧
       (env "KUBE_LOAD_CONFIG_FILE" = "" →
        k8sGetOk env d "load_config_file" = (.b true, true)))) ∧
    (∀ (env : Env) (d : ResourceData),
      kGetField d.kubernetes "config_path" = none →
      ((env "KUBE_CONFIG" ≠ "" →
        k8sGetOk env d "config_path" = (.s (env "KUBE_CONFIG"), true)) ∧
       (env "KUBE_CONFIG" = "" → env "KUBECONFIG" ≠ "" →
        k8sGetOk env d "config_path" = (.s (env "KUBECONFIG"), true)) ∧
       (env "KUBE_CONFIG" = "" → env "KUBECONFIG" = "" →
        k8sGetOk env d "config_path" = (.s "~/.kube/config", true)))) := by
  refine ⟨?_, ?_, ?_, ?_, ?_, ?_, ?_, ?_, ?_, ?_, ?_, ?_, ?_, ?_, ?_⟩
  · intro env d kb key v hkb hmem hget hv
    have hnz := string_length_ne_zero hv
    fin_cases hmem <;>
      simp [k8sGetOk, dGetOkNested, hkb, hget, svalNonzero, hnz]
  · intro env d key evar hmem hevar hnone
    fin_cases hmem <;>
    · simp only [k8sKeyEnvVar, Option.some.injEq] at hevar
      subst hevar
      constructor
      · intro he
        have hnz := string_length_ne_zero he
        simp [k8sGetOk, dGetOkNested, hnone, zeroOf, k8sKeyIsBool, kubernetesDefaultFunc,
          envDefaultS, defaultOk, he, hnz]
      · intro he
        simp [k8sGetOk, dGetOkNested, hnone, zeroOf, k8sKeyIsBool, kubernetesDefaultFunc,
          envDefaultS, defaultOk, he]
  · intro env d kb b hkb hb
    cases b <;>
      simp [k8sGetOk, dGetOkNested, dGetOkExistsNested, kGetField, hkb, hb, svalNonzero]
  · intro env d hnone
    constructor
    · intro he
      have hnz := string_length_ne_zero he
      simp [k8sGetOk, dGetOkNested, dGetOkExistsNested, hnone, zeroOf, k8sKeyIsBool,
        kubernetesDefaultFunc, envDefaultB, defaultOk, he, hnz]
    · intro he
      simp [k8sGetOk, dGetOkNested, dGetOkExistsNested, hnone, zeroOf, k8sKeyIsBool,
        kubernetesDefaultFunc, envDefaultB, defaultOk, he]
  · intro ex envv df
    simp [topGetOk]
  · intro envv df h
    simp [topGetOk, h]
  · intro df
    rfl
  · intro env d b hb
    simp [topDebug, hb]
  · intro env d b hd hp
    by_cases henv : env "HELM_DEBUG" = ""
    · rw [henv] at hp
      simp [strconvParseBool] at hp
    · simp [topDebug, hd, henv, hp]
  · intro env d hd henv
    simp [topDebug, hd, henv]
  · intro env d kb b hkb hb
    cases b <;>
      simp [k8sGetOk, dGetOkNested, dGetOkExistsNested, kGetField, hkb, hb, svalNonzero]
  · intro env d hnone
    simp [k8sGetOk, dGetOkNested, dGetOkExistsNested, hnone, zeroOf, k8sKeyIsBool,
      kubernetesDefaultFunc]
  · intro env d kb b hkb hb
    cases b <;>
      simp [k8sGetOk, dGetOkNested, dGetOkExistsNested, kGetField, hkb, hb, svalNonzero]
  · intro env d hnone
    constructor
    · intro he
      have hnz := string_length_ne_zero he
      simp [k8sGetOk, dGetOkNested, dGetOkExistsNested, hnone, zeroOf, k8sKeyIsBool,
        kubernetesDefaultFunc, envDefaultB, defaultOk, he, hnz]
    · intro he
      simp [k8sGetOk, dGetOkNested, dGetOkExistsNested, hnone, zeroOf, k8sKeyIsBool,
        kubernetesDefaultFunc, envDefaultB, defaultOk, he]
  · intro env d hnone
    refine ⟨?_, ?_, ?_⟩
    · intro h1
      have hnz := string_length_ne_zero h1
      simp [k8sGetOk, dGetOkNested, hnone, zeroOf, k8sKeyIsBool, kubernetesDefaultFunc,
        multiEnvDefault, defaultOk, h1, hnz]
    · intro h1 h2
      have hnz := string_length_ne_zero h2
      simp [k8sGetOk, dGetOkNested, hnone, zeroOf, k8sKeyIsBool, kubernetesDefaultFunc,
        multiEnvDefault, defaultOk, h1, h2, hnz]
    · intro h1 h2
      simp [k8sGetOk, dGetOkNested, hnone, zeroOf, k8sKeyIsBool, kubernetesDefaultFunc,
        multiEnvDefault, defaultOk, h1, h2]
      decide

/-- Witness for `c6_precedence` at concrete inputs: an explicit `"bob"` wins
over `KUBE_USER=alice`; with the field unset, `KUBE_USER=alice` wins over
the empty hard default; with neither, the top-level hard default
(`"secret"` for `helm_driver`) is resolved; with `load_config_file` unset
and its variable unset, the hard default `true` is resolved. -/
theorem c6_witness :
    k8sGetOk envKubeUser dUserBob "username" = (.s "bob", true) ∧
    k8sGetOk envKubeUser {} "username" = (.s "alice", true) ∧
    topGetOk none "" "secret" = ("secret", true) ∧
    k8sGetOk envEmpty {} "load_config_file" = (.b true, true) := by
  refine ⟨c6_precedence.1 envKubeUser dUserBob { username := some "bob" } "username" "bob"
      rfl (by decide) rfl (by decide),
    ((c6_precedence.2.1 envKubeUser {} "username" "KUBE_USER" (by decide) rfl rfl).1
      (by decide)),
    by simpa using c6_precedence.2.2.2.2.2.2.1 "secret",
    (c6_precedence.2.2.2.2.2.2.2.2.2.2.2.2.2.1 envEmpty {} rfl).2 rfl⟩

/-- C8: `GetHelmConfiguration` surfaces an `Init` failure verbatim — the
returned error is exactly the one `Init` produced, with no handle — and on
success returns the freshly initialized handle with a nil error. -/
theorem c8_init_error_verbatim {H : Type}
    (initFn : Option ConfigFlags → String → String → Except String H)
    (m : Meta) (ns : String) :
    (∀ e, initFn m.ConfigFlags ns m.HelmDriver = .error e →
      GetHelmConfiguration initFn m ns = .error e) ∧
    (∀ h, initFn m.ConfigFlags ns m.HelmDriver = .ok h →
      GetHelmConfiguration initFn m ns = .ok h) := by
  constructor
  · intro e he
    simp [GetHelmConfiguration, he]
  · intro h hh
    simp [GetHelmConfiguration, hh]

/-- Witness for `c8_init_error_verbatim`: a failing `Init` yields exactly
its error, a succeeding one yields exactly its handle. -/
theorem c8_witness :
    GetHelmConfiguration (fun _ _ _ => (Except.error "init failed" : Except String Nat))
      {} "ops" = Except.error "init failed" ∧
    GetHelmConfiguration (fun _ _ _ => (Except.ok 7 : Except String Nat))
      {} "ops" = Except.ok 7 := by
  refine ⟨(c8_init_error_verbatim (fun _ _ _ => Except.error "init failed") {} "ops").1
      "init failed" rfl,
    (c8_init_error_verbatim (fun _ _ _ => Except.ok 7) {} "ops").2 7 rfl⟩

/-- C9: with no explicit `config_path`, the default consults `KUBE_CONFIG`
first and `KUBECONFIG` second (first one set wins), and only when neither is
set does the hard-coded `~/.kube/config` apply. -/
theorem c9_config_path_dual_env (env : Env) (d : ResourceData)
    (hnone : kGetField d.kubernetes "config_path" = none) :
    (env "KUBE_CONFIG" ≠ "" →
      k8sGetOk env d "config_path" = (.s (env "KUBE_CONFIG"), true)) ∧
    (env "KUBE_CONFIG" = "" → env "KUBECONFIG" ≠ "" →
      k8sGetOk env d "config_path" = (.s (env "KUBECONFIG"), true)) ∧
    (env "KUBE_CONFIG" = "" → env "KUBECONFIG" = "" →
      k8sGetOk env d "config_path" = (.s "~/.kube/config", true)) := by
  refine ⟨?_, ?_, ?_⟩
  · intro h1
    have hnz := string_length_ne_zero h1
    simp [k8sGetOk, dGetOkNested, hnone, zeroOf, k8sKeyIsBool, kubernetesDefaultFunc,
      multiEnvDefault, defaultOk, h1, hnz]
  · intro h1 h2
    have hnz := string_length_ne_zero h2
    simp [k8sGetOk, dGetOkNested, hnone, zeroOf, k8sKeyIsBool, kubernetesDefaultFunc,
      multiEnvDefault, defaultOk, h1, h2, hnz]
  · intro h1 h2
    simp [k8sGetOk, dGetOkNested, hnone, zeroOf, k8sKeyIsBool, kubernetesDefaultFunc,
      multiEnvDefault, defaultOk, h1, h2]
    decide

/-- Witness for `c9_config_path_dual_env` at concrete environments: each of
the three layers resolves as stated. -/
theorem c9_witness :
    k8sGetOk envKubeConfig {} "config_path" = (.s "/tmp/kc1", true) ∧
    k8sGetOk envKubeconfigOnly {} "config_path" = (.s "/tmp/kc2", true) ∧
    k8sGetOk envEmpty {} "config_path" = (.s "~/.kube/config", true) := by
  refine ⟨(c9_config_path_dual_env envKubeConfig {} rfl).1 (by decide),
    (c9_config_path_dual_env envKubeconfigOnly {} rfl).2.1 rfl (by decide),
    (c9_config_path_dual_env envEmpty {} rfl).2.2 rfl rfl⟩

end HelmProvider
